import Mathlib

/-
  Verification of the risk-assessment engine of the Rocky1001_bot repository
  (src/bot.py), as a shallow embedding in Lean 4.

  Modelling conventions:
  * Message text is modelled as `List Char` (`Option (List Char)` when the
    text may be absent); the embedding covers the ASCII fragment, on which
    Lean's `Char.toLower` / `Char.isUpper` agree with Python's `str.lower` /
    `str.isupper`.
  * Python's float comparison `sum(...) / len(text) > 0.7` is embedded as the
    exact rational comparison `10 * count > 7 * len` (division-free).
  * Counts (member counts, warning counts, alert counts, risk scores) are
    Python non-negative integers and are modelled as `Nat`.
  * Side effects of the message-monitoring path (database inserts, Telegram
    API calls) are reified as an explicit list of `ModAction` values.
-/

/-- Python `str.split()` whitespace set (ASCII fragment): space, \t, \n, \r,
\v (0x0b), \f (0x0c). -/
def isSpacePy (c : Char) : Bool :=
  c == ' ' || c == Char.ofNat 9 || c == Char.ofNat 10 || c == Char.ofNat 13
    || c == Char.ofNat 11 || c == Char.ofNat 12

/-- Helper for `splitWs`: accumulates the current token (reversed) in `acc`. -/
def splitWsAux : List Char → List Char → List (List Char)
  | [], acc => if acc.isEmpty then [] else [acc.reverse]
  | c :: t, acc =>
      if isSpacePy c then
        if acc.isEmpty then splitWsAux t [] else acc.reverse :: splitWsAux t []
      else splitWsAux t (c :: acc)

/-- Python `str.split()` with no argument: split on runs of whitespace,
discarding empty tokens. -/
def splitWs (l : List Char) : List (List Char) := splitWsAux l []

/-- Python substring containment `needle in hay`: the needle is a prefix of
some suffix of the haystack (`List.isPrefixOf` is the standard library's
Boolean prefix test). -/
def containsSub (needle : List Char) : List Char → Bool
  | [] => needle.isEmpty
  | c :: t => List.isPrefixOf needle (c :: t) || containsSub needle t

/-- `sum(1 for c in l if c.isupper())`. -/
def countUpper (l : List Char) : Nat := (l.filter Char.isUpper).length

/-- Python `str.lower()` (ASCII fragment). -/
def lowerPy (l : List Char) : List Char := l.map Char.toLower

/-- `self.suspicious_keywords` from `RenderCompatibleBot.__init__`. -/
def suspicious_keywords : List (List Char) :=
  ["http://".data, "https://".data, "t.me/".data, "buy now".data,
   "limited offer".data, "click here".data, "earn money".data,
   "make money".data, "investment".data, "bitcoin".data, "crypto".data,
   "free money".data]

/-- `self.violent_words` from `RenderCompatibleBot.__init__`. -/
def violent_words : List (List Char) :=
  ["kill".data, "attack".data, "bomb".data, "violence".data, "hurt".data,
   "destroy".data, "harm".data]

/-- `RenderCompatibleBot.detect_suspicious_content`: `none` models an absent
(or falsy, i.e. empty) `message.text`; otherwise the text is lowercased and
the four pattern checks run on the lowered text, in source order.  Note that
the uppercase count in the `excessive_caps` check is taken over the already
lowercased text, exactly as in the source. -/
def detect_suspicious_content (msgText : Option (List Char)) : List String :=
  match msgText with
  | none => []
  | some raw =>
      let text := lowerPy raw
      (if suspicious_keywords.any (fun k => containsSub k text)
        then ["spam_links"] else [])
      ++ (if violent_words.any (fun w => containsSub w text)
        then ["violent_content"] else [])
      ++ (if text.length > 10 ∧ 10 * countUpper text > 7 * text.length
        then ["excessive_caps"] else [])
      ++ (if text.length > 50 ∧ (splitWs text).dedup.length < 10
        then ["repetitive_content"] else [])

/-- The risk-factor counts consumed by `calculate_risk_score`
(`suspicious_members` is the length of the list the scan accumulates). -/
structure RiskFactors where
  suspicious_members : Nat
  recent_joins : Nat
  bot_count : Nat
  admin_issues : Nat
  recent_alerts : Nat

/-- The `recent_joins` contribution in `calculate_risk_score`
(`if recent_joins > 20: score += 20 elif recent_joins > 10: score += 10`). -/
def joins_weight (j : Nat) : Nat :=
  if j > 20 then 20 else if j > 10 then 10 else 0

/-- The `bot_count` contribution in `calculate_risk_score`
(`if bot_count > 5: score += 15 elif bot_count > 2: score += 5`). -/
def bots_weight (b : Nat) : Nat :=
  if b > 5 then 15 else if b > 2 then 5 else 0

/-- `RenderCompatibleBot.calculate_risk_score`: weighted sum of the risk
factors, clamped by `min(score, 100)`. -/
def calculate_risk_score (rf : RiskFactors) : Nat :=
  min (rf.suspicious_members * 10 + joins_weight rf.recent_joins
    + bots_weight rf.bot_count + rf.admin_issues * 10
    + rf.recent_alerts * 3) 100

/-- The status string computed and persisted by
`RenderCompatibleBot.update_group_status`: a function of the latest
`risk_score` alone (the source never reads the previous status). -/
def update_group_status (risk_score : Nat) : String :=
  if risk_score > 70 then "risk"
  else if risk_score > 30 then "warning"
  else "safe"

/-- C1: for every risk-factor input, the score returned by
`calculate_risk_score` is an integer in the interval [0, 100]. -/
theorem calculate_risk_score_in_range (rf : RiskFactors) :
    0 ≤ calculate_risk_score rf ∧ calculate_risk_score rf ≤ 100 := by
  refine ⟨Nat.zero_le _, ?_⟩
  unfold calculate_risk_score
  omega

/-- C2: the persisted group status is a function of the latest risk score
alone, with status `"risk"` iff score > 70, `"warning"` iff 30 < score ≤ 70,
and `"safe"` iff score ≤ 30. -/
theorem update_group_status_thresholds (s : Nat) :
    (update_group_status s = "risk" ↔ 70 < s)
      ∧ (update_group_status s = "warning" ↔ 30 < s ∧ s ≤ 70)
      ∧ (update_group_status s = "safe" ↔ s ≤ 30) := by
  unfold update_group_status
  have hrw : ("risk" = "warning") = False := by simp
  have hrs : ("risk" = "safe") = False := by simp
  have hws : ("warning" = "safe") = False := by simp
  have hwr : ("warning" = "risk") = False := by simp
  have hsr : ("safe" = "risk") = False := by simp
  have hsw : ("safe" = "warning") = False := by simp
  split_ifs with h1 h2 <;>
    simp only [hrw, hrs, hws, hwr, hsr, hsw, eq_self_iff_true, true_iff,
      iff_true, false_iff, iff_false, not_lt, not_and, not_le] <;>
    omega

/-- C2 witness: a score of 80 is persisted as `"risk"`. -/
theorem update_group_status_thresholds_witness :
    update_group_status 80 = "risk" ∧ 70 < 80 :=
  ⟨(update_group_status_thresholds 80).1.mpr (by decide), by decide⟩

/-- C6: `calculate_risk_score` is monotone in every contributing factor:
increasing any of the five counts never lowers the score. -/
theorem calculate_risk_score_mono (a b : RiskFactors)
    (h1 : a.suspicious_members ≤ b.suspicious_members)
    (h2 : a.recent_joins ≤ b.recent_joins)
    (h3 : a.bot_count ≤ b.bot_count)
    (h4 : a.admin_issues ≤ b.admin_issues)
    (h5 : a.recent_alerts ≤ b.recent_alerts) :
    calculate_risk_score a ≤ calculate_risk_score b := by
  unfold calculate_risk_score joins_weight bots_weight
  split_ifs <;> omega

/-- C6 witness: monotonicity at a concrete pair of risk-factor inputs. -/
theorem calculate_risk_score_mono_witness :
    ((1 : Nat) ≤ 2 ∧ (0 : Nat) ≤ 15 ∧ (0 : Nat) ≤ 3 ∧ (0 : Nat) ≤ 1
        ∧ (0 : Nat) ≤ 4)
      ∧ calculate_risk_score ⟨1, 0, 0, 0, 0⟩
          ≤ calculate_risk_score ⟨2, 15, 3, 1, 4⟩ :=
  ⟨by decide,
    calculate_risk_score_mono ⟨1, 0, 0, 0, 0⟩ ⟨2, 15, 3, 1, 4⟩
      (by decide) (by decide) (by decide) (by decide) (by decide)⟩

/-- C7 counterexample: with all other factors zero, 24 recent alerts alone
give score 72 > 70, which `update_group_status` persists as `"risk"` (HIGH):
the 24h-alert contribution is not capped below the HIGH threshold. -/
theorem recent_alerts_alone_can_reach_high :
    calculate_risk_score ⟨0, 0, 0, 0, 24⟩ = 72
      ∧ update_group_status (calculate_risk_score ⟨0, 0, 0, 0, 24⟩) = "risk" := by
  constructor <;> rfl

/-- C7 (amended): with all other factors zero the score is exactly
`min (3 * alerts) 100` — capped only by the global clamp at 100, so it stays
≤ 70 whenever the alert count is ≤ 23 — and with 6 recent alerts the score is
18, which is not HIGH. -/
theorem recent_alerts_contribution :
    (∀ a : Nat, calculate_risk_score ⟨0, 0, 0, 0, a⟩ = min (3 * a) 100)
      ∧ (∀ a : Nat, a ≤ 23 → calculate_risk_score ⟨0, 0, 0, 0, a⟩ ≤ 70)
      ∧ calculate_risk_score ⟨0, 0, 0, 0, 6⟩ = 18
      ∧ update_group_status (calculate_risk_score ⟨0, 0, 0, 0, 6⟩) ≠ "risk" := by
  refine ⟨fun a => ?_, fun a ha => ?_, by rfl, by decide⟩ <;>
    · simp only [calculate_risk_score, joins_weight, bots_weight]
      split_ifs <;> omega

/-- C7 witness: the amended bound applied at 5 recent alerts. -/
theorem recent_alerts_contribution_witness :
    (5 : Nat) ≤ 23 ∧ calculate_risk_score ⟨0, 0, 0, 0, 5⟩ ≤ 70 :=
  ⟨by decide, recent_alerts_contribution.2.1 5 (by decide)⟩

/-- `alert_risk_level` in `RenderCompatibleBot.log_suspicious_activity`:
`'high' if 'violent_content' in patterns else 'medium'`. -/
def alert_risk_level (patterns : List String) : String :=
  if "violent_content" ∈ patterns then "high" else "medium"

/-- Activity `risk_level` in `RenderCompatibleBot.log_suspicious_activity`:
`'high_risk' if 'violent_content' in patterns else 'suspicious'`. -/
def activity_risk_level (patterns : List String) : String :=
  if "violent_content" ∈ patterns then "high_risk" else "suspicious"

/-- `alert_type` in `RenderCompatibleBot.log_suspicious_activity`. -/
def alert_type_of (patterns : List String) : String :=
  if "violent_content" ∈ patterns then "violent_content" else "suspicious_message"

/-- The side effects the message-monitoring path can perform, reified.
`deleteMessage`, `restrictSender`, `banSender` and `incrementWarning` are
included so that their absence from the path's output is expressible. -/
inductive ModAction where
  | logActivity (content : List Char) (riskLevel : String)
  | createAlert (alertType : String) (riskLevel : String)
  | notifyOwner
  | deleteMessage
  | restrictSender
  | banSender
  | incrementWarning
  deriving DecidableEq

/-- `RenderCompatibleBot.log_suspicious_activity`: inserts one activity row
(content truncated to 500) and one alert row.  Absent/falsy text is modelled
as `none`. -/
def log_suspicious_activity (text : Option (List Char))
    (patterns : List String) : List ModAction :=
  let content := match text with
    | some r => r.take 500
    | none => "Media message".data
  [ModAction.logActivity content (activity_risk_level patterns),
   ModAction.createAlert (alert_type_of patterns) (alert_risk_level patterns)]

/-- `RenderCompatibleBot.monitor_messages`: returns early when there is no
message, the chat is private, or the sender is the bot itself; otherwise, if
any suspicious pattern is detected, it logs the activity, creates an alert
and notifies the owner.  The source consults no permission information on
this path and issues no moderation action. -/
def monitor_messages (hasMessage isPrivate senderIsSelf : Bool)
    (text : Option (List Char)) : List ModAction :=
  if !hasMessage || isPrivate || senderIsSelf then []
  else
    let ps := detect_suspicious_content text
    if ps ≠ [] then log_suspicious_activity text ps ++ [ModAction.notifyOwner]
    else []

/-- The bot's membership record as consulted by `check_admin_permissions`
(`status == ADMINISTRATOR`, `can_delete_messages`, `can_restrict_members`). -/
structure BotMemberInfo where
  isAdministrator : Bool
  can_delete_messages : Bool
  can_restrict_members : Bool

/-- Outcome of a platform API call: a value, or a `TelegramError`/`BadRequest`
(the exceptions the source catches). -/
inductive ApiResult (α : Type) where
  | ok (val : α)
  | telegramError

/-- `RenderCompatibleBot.get_chat_member_count`: the platform's answer, or 0
when the call raised `TelegramError`/`BadRequest`. -/
def get_chat_member_count : ApiResult Nat → Nat
  | ApiResult.ok n => n
  | ApiResult.telegramError => 0

/-- `RenderCompatibleBot.check_admin_permissions`: one issue when the bot is
not an administrator or lacks delete/restrict rights, and likewise one issue
when the membership lookup raised `TelegramError`/`BadRequest`. -/
def check_admin_permissions : ApiResult BotMemberInfo → Nat
  | ApiResult.ok m =>
      if m.isAdministrator = false ∨ m.can_delete_messages = false
          ∨ m.can_restrict_members = false
      then 1 else 0
  | ApiResult.telegramError => 1

/-- The signal taxonomy as the spec words it (spec side of the refinement
comparison with the signal names the source emits). -/
def spec_signal_taxonomy : List String :=
  ["spam_link", "banned_keyword", "inappropriate_content", "scam_phrase",
   "excessive_caps", "repetitive_content"]

/-- The signal names `detect_suspicious_content` actually appends. -/
def code_signal_taxonomy : List String :=
  ["spam_links", "violent_content", "excessive_caps", "repetitive_content"]

/-- C3 counterexample: "kill them all" is assessed at the highest risk the
monitoring path knows (`alert_risk_level = "high"`), yet processing it emits
no message deletion, no warning-count increment, no restriction and no ban —
the source's `monitor_messages` never consults permissions and never
moderates, contradicting the claim. -/
theorem monitor_high_risk_no_moderation_cex :
    alert_risk_level (detect_suspicious_content (some ("kill them all".data)))
        = "high"
      ∧ ModAction.deleteMessage
          ∉ monitor_messages true false false (some ("kill them all".data))
      ∧ ModAction.incrementWarning
          ∉ monitor_messages true false false (some ("kill them all".data))
      ∧ ModAction.restrictSender
          ∉ monitor_messages true false false (some ("kill them all".data))
      ∧ ModAction.banSender
          ∉ monitor_messages true false false (some ("kill them all".data)) := by
  refine ⟨?_, ?_, ?_, ?_, ?_⟩ <;> decide

/-- C3 (amended): for every monitored group message from another user whose
text triggers any suspicious pattern, processing logs the activity, creates
an alert and notifies the owner — and performs no deletion, warning
increment, restriction or ban, regardless of the bot's permissions (the path
never consults them). -/
theorem monitor_messages_logs_and_alerts_only (t : Option (List Char))
    (h : detect_suspicious_content t ≠ []) :
    monitor_messages true false false t
        = log_suspicious_activity t (detect_suspicious_content t)
            ++ [ModAction.notifyOwner]
      ∧ ModAction.deleteMessage ∉ monitor_messages true false false t
      ∧ ModAction.incrementWarning ∉ monitor_messages true false false t
      ∧ ModAction.restrictSender ∉ monitor_messages true false false t
      ∧ ModAction.banSender ∉ monitor_messages true false false t := by
  have he : monitor_messages true false false t
      = log_suspicious_activity t (detect_suspicious_content t)
          ++ [ModAction.notifyOwner] := by
    simp [monitor_messages, h]
  refine ⟨he, ?_, ?_, ?_, ?_⟩ <;>
    · rw [he]
      simp [log_suspicious_activity, List.mem_append]

/-- C3 witness: the amended statement applied to the message "attack now". -/
theorem monitor_messages_logs_and_alerts_only_witness :
    detect_suspicious_content (some ("attack now".data)) ≠ []
      ∧ ModAction.deleteMessage
          ∉ monitor_messages true false false (some ("attack now".data)) :=
  ⟨by decide,
    (monitor_messages_logs_and_alerts_only (some ("attack now".data))
      (by decide)).2.1⟩

/-- C4: the source lowercases the text before counting uppercase characters,
so on the all-caps message "AAAAAAAAAAAA" — length 12 > 10, uppercase ratio
1 > 0.7 on the original text — `excessive_caps` is not reported, although the
claim (and the source's own comment about catching shouting) says it must
be. -/
theorem excessive_caps_never_fires_on_all_caps :
    ("AAAAAAAAAAAA".data.length > 10
        ∧ 10 * countUpper "AAAAAAAAAAAA".data > 7 * "AAAAAAAAAAAA".data.length)
      ∧ "excessive_caps" ∉ detect_suspicious_content (some "AAAAAAAAAAAA".data)
    := by
  exact ⟨by decide, by decide⟩

/-- C5 counterexample: on "kill" the source reports `violent_content`, a
signal name outside the spec's fixed taxonomy (which also spells the link
signal `spam_link`, while the source emits `spam_links`). -/
theorem detect_outside_spec_taxonomy :
    "violent_content" ∈ detect_suspicious_content (some "kill".data)
      ∧ "violent_content" ∉ spec_signal_taxonomy := by
  exact ⟨by decide, by decide⟩

/-- C5 (amended): for every text input (including absent text), the signal
list is a subset of the taxonomy the source actually uses —
`spam_links`, `violent_content`, `excessive_caps`, `repetitive_content` —
and the output is deterministic (equal inputs give equal signal lists). -/
theorem detect_in_code_taxonomy :
    (∀ t : Option (List Char),
        ∀ s ∈ detect_suspicious_content t, s ∈ code_signal_taxonomy)
      ∧ (∀ t u : Option (List Char), t = u →
          detect_suspicious_content t = detect_suspicious_content u) := by
  constructor
  · intro t s hs
    cases t with
    | none => simp [detect_suspicious_content] at hs
    | some raw =>
        simp only [detect_suspicious_content] at hs
        split_ifs at hs <;> simp_all [code_signal_taxonomy] <;> tauto
  · intro t u h
    rw [h]

/-- C5 witness: the amended statement applied to the message "bomb". -/
theorem detect_in_code_taxonomy_witness :
    "violent_content" ∈ code_signal_taxonomy
      ∧ detect_suspicious_content (some "bomb".data)
          = detect_suspicious_content (some "bomb".data) :=
  ⟨detect_in_code_taxonomy.1 (some "bomb".data) "violent_content" (by decide),
   detect_in_code_taxonomy.2 (some "bomb".data) (some "bomb".data) rfl⟩

/-- C8 counterexample: twenty whitespace-delimited copies of "a" (39
characters) give ≥ 20 tokens with a single distinct token, yet
`repetitive_content` is not reported — the source's condition is
`len(text) > 50` characters, not a token-count threshold. -/
theorem repetitive_content_not_token_based :
    20 ≤ (splitWs "a a a a a a a a a a a a a a a a a a a a".data).length
      ∧ (splitWs "a a a a a a a a a a a a a a a a a a a a".data).dedup.length
          < 10
      ∧ "repetitive_content" ∉ detect_suspicious_content
          (some "a a a a a a a a a a a a a a a a a a a a".data) := by
  exact ⟨by decide, by decide, by decide⟩

/-- C8 (amended): `repetitive_content` is reported exactly when the
(lowercased) text is longer than 50 characters and has fewer than 10
distinct whitespace-delimited tokens. -/
theorem repetitive_content_characterization (raw : List Char) :
    "repetitive_content" ∈ detect_suspicious_content (some raw)
      ↔ (lowerPy raw).length > 50
          ∧ (splitWs (lowerPy raw)).dedup.length < 10 := by
  simp only [detect_suspicious_content]
  split_ifs with h1 h2 h3 h4 <;> simp_all

/-- C8 witness: fifty-one copies of "b" (one distinct token, 51 characters)
do trigger `repetitive_content`. -/
theorem repetitive_content_characterization_witness :
    "repetitive_content"
      ∈ detect_suspicious_content (some (List.replicate 51 'b')) :=
  (repetitive_content_characterization (List.replicate 51 'b')).mpr (by decide)

/-- C9: when the platform call raises `TelegramError`/`BadRequest`, the
member count degrades to 0 and the permission check reports one issue —
the same result as for a member record that is not an administrator. -/
theorem api_failure_degrades (m : BotMemberInfo)
    (h : m.isAdministrator = false) :
    get_chat_member_count ApiResult.telegramError = 0
      ∧ check_admin_permissions ApiResult.telegramError = 1
      ∧ check_admin_permissions (ApiResult.ok m)
          = check_admin_permissions ApiResult.telegramError := by
  refine ⟨rfl, rfl, ?_⟩
  simp [check_admin_permissions, h]

/-- C9 witness: the degradation statement at a concrete non-admin record. -/
theorem api_failure_degrades_witness :
    (BotMemberInfo.mk false true true).isAdministrator = false
      ∧ get_chat_member_count ApiResult.telegramError = 0 :=
  ⟨rfl, (api_failure_degrades (BotMemberInfo.mk false true true) rfl).1⟩

/-- C10: every alert produced by the monitoring path has risk level "high"
or "medium" — "high" exactly when `violent_content` was detected — and the
logged activity's level is "high_risk" exactly when `violent_content` was
detected. -/
theorem monitoring_alert_levels (t : Option (List Char))
    (_h : detect_suspicious_content t ≠ []) :
    (alert_risk_level (detect_suspicious_content t) = "high"
        ∨ alert_risk_level (detect_suspicious_content t) = "medium")
      ∧ (alert_risk_level (detect_suspicious_content t) = "high"
          ↔ "violent_content" ∈ detect_suspicious_content t)
      ∧ (activity_risk_level (detect_suspicious_content t) = "high_risk"
          ↔ "violent_content" ∈ detect_suspicious_content t) := by
  by_cases hv : "violent_content" ∈ detect_suspicious_content t
  · rw [alert_risk_level, activity_risk_level, if_pos hv, if_pos hv]
    exact ⟨Or.inl rfl, ⟨fun _ => hv, fun _ => rfl⟩, ⟨fun _ => hv, fun _ => rfl⟩⟩
  · rw [alert_risk_level, activity_risk_level, if_neg hv, if_neg hv]
    exact ⟨Or.inr rfl,
      ⟨fun hh => absurd hh (by decide), fun hm => absurd hm hv⟩,
      ⟨fun hh => absurd hh (by decide), fun hm => absurd hm hv⟩⟩

/-- C10 witness: the alert-level statement at the message "destroy it". -/
theorem monitoring_alert_levels_witness :
    detect_suspicious_content (some ("destroy it".data)) ≠ []
      ∧ (alert_risk_level (detect_suspicious_content (some ("destroy it".data)))
            = "high"
          ∨ alert_risk_level
              (detect_suspicious_content (some ("destroy it".data)))
            = "medium") :=
  ⟨by decide,
    (monitoring_alert_levels (some ("destroy it".data)) (by decide)).1⟩
